import Mathlib

/-!
Shallow embedding of the training-lifecycle and trainable-parameter
scheduling subsystem of OneTrainer, restricted to the two modules
`modules/modelSetup/StableDiffusionXLEmbeddingSetup.py` and
`modules/ui/TrainUI.py`.

Requires-grad flags are modelled as `Bool` fields, device placement and
thread-side effects as explicit event traces, and the UI controller state
as a record that the embedded functions transform.
-/

/-- Unit of measure for a per-embedding stop threshold (steps or epochs). -/
inductive TimeUnit where
  | step
  | epoch
deriving DecidableEq, Repr

/-- Modelled from the spec: the progress counter triple (global step count,
epoch count, within-epoch step count) of `modules/util/TrainProgress.py`,
which is not part of the two embedded source files. -/
structure TrainProgress where
  global_step : Nat
  epoch : Nat
  epoch_step : Nat
deriving DecidableEq, Repr

/-- Per-encoder slice of the training configuration: the "train embedding"
flag read by `create_parameters`, `__setup_requires_grad` and
`setup_train_device`. -/
structure TextEncoderConfig where
  train_embedding : Bool
deriving DecidableEq, Repr

/-- Configuration of one additional embedding (`config.additional_embeddings[i]`):
the static `train` intent plus the stop-after threshold and its unit of
measure. -/
structure AdditionalEmbeddingConfig where
  train : Bool
  stop_training_after : Option Nat
  stop_training_after_unit : TimeUnit
deriving DecidableEq, Repr

/-- Default used when an additional-embedding index is read out of range
(the source would raise an IndexError there; every theorem below assumes
in-range indices). -/
def defaultAdditionalEmbeddingConfig : AdditionalEmbeddingConfig :=
  { train := false, stop_training_after := none, stop_training_after_unit := TimeUnit.step }

/-- Fields of `TrainConfig` read by `StableDiffusionXLEmbeddingSetup`. -/
structure TrainConfig where
  text_encoder : TextEncoderConfig
  text_encoder_2 : TextEncoderConfig
  additional_embeddings : List AdditionalEmbeddingConfig
  preserve_embedding_norm : Bool
  align_prop : Bool
  latent_caching : Bool
deriving DecidableEq, Repr

/-- Requires-grad state of the two conditioning vectors of one embedding
(base or additional). -/
structure EmbeddingVectors where
  text_encoder_1_vector : Bool
  text_encoder_2_vector : Bool
deriving DecidableEq, Repr

/-- Default used when an embedding-vector index is read out of range. -/
def defaultEmbeddingVectors : EmbeddingVectors :=
  { text_encoder_1_vector := false, text_encoder_2_vector := false }

/-- Requires-grad state of the model as touched by `__setup_requires_grad`:
the four backbone sub-models, the base embedding, the additional
embeddings, and the progress counter consulted for stop thresholds. -/
structure SDXLModelState where
  text_encoder_1 : Bool
  text_encoder_2 : Bool
  vae : Bool
  unet : Bool
  embedding : EmbeddingVectors
  additional_embeddings : List EmbeddingVectors
  train_progress : TrainProgress
deriving DecidableEq, Repr

/-- Modelled from the spec: `stop_additional_embedding_training_elapsed` of
the base model setup class, which is not part of the two embedded source
files.  It compares the current progress (step or epoch, per the unit's
configured unit of measure) against the unit's threshold; a threshold of
zero or an unset threshold means the unit never stops. -/
def stop_additional_embedding_training_elapsed
    (c : AdditionalEmbeddingConfig) (p : TrainProgress) (_i : Nat) : Bool :=
  match c.stop_training_after with
  | none => false
  | some 0 => false
  | some t =>
    match c.stop_training_after_unit with
    | TimeUnit.step => decide (t ≤ p.global_step)
    | TimeUnit.epoch => decide (t ≤ p.epoch)

/-- Requires-grad decision of the loop body of `__setup_requires_grad`
(lines 58-71) for additional embedding `i`: each vector is enabled iff the
unit's `train` intent holds, the owning encoder's flag holds, and the stop
condition has not elapsed. -/
def additionalVectorFlags (ec : AdditionalEmbeddingConfig) (te1 te2 : Bool)
    (p : TrainProgress) (i : Nat) : EmbeddingVectors :=
  { text_encoder_1_vector :=
      ec.train && te1 && !(stop_additional_embedding_training_elapsed ec p i),
    text_encoder_2_vector :=
      ec.train && te2 && !(stop_additional_embedding_training_elapsed ec p i) }

/-- The `for i, embedding in enumerate(model.additional_embeddings)` loop of
`__setup_requires_grad`, carrying the running index. -/
def setupAdditionalLoop (cfgs : List AdditionalEmbeddingConfig) (te1 te2 : Bool)
    (p : TrainProgress) : Nat → List EmbeddingVectors → List EmbeddingVectors
  | _, [] => []
  | i, _ :: rest =>
    additionalVectorFlags (cfgs.getD i defaultAdditionalEmbeddingConfig) te1 te2 p i ::
      setupAdditionalLoop cfgs te1 te2 p (i + 1) rest

/-- `__setup_requires_grad` (lines 45-71): disables requires-grad on the four
backbone sub-models, enables both base embedding vectors, and recomputes
every additional embedding vector from config and progress. -/
def setup_requires_grad (model : SDXLModelState) (config : TrainConfig) : SDXLModelState :=
  { model with
    text_encoder_1 := false
    text_encoder_2 := false
    vae := false
    unet := false
    embedding := { text_encoder_1_vector := true, text_encoder_2_vector := true }
    additional_embeddings :=
      setupAdditionalLoop config.additional_embeddings
        config.text_encoder.train_embedding config.text_encoder_2.train_embedding
        model.train_progress 0 model.additional_embeddings }

/-- `create_parameters` (lines 26-43), abstracted to the names of the
parameter groups it adds: a wrapper's group is present iff the owning
encoder's "train embedding" flag is set. -/
def create_parameters (config : TrainConfig) : List String :=
  (if config.text_encoder.train_embedding then ["embeddings_1"] else []) ++
    (if config.text_encoder_2.train_embedding then ["embeddings_2"] else [])

/-- Observable actions of `after_optimizer_step` (lines 111-120). -/
inductive AfterStepEvent where
  | normalizeWrapper1
  | normalizeWrapper2
  | recomputeRequiresGrad
deriving DecidableEq, Repr

/-- `after_optimizer_step` (lines 111-120): normalizes both embedding
wrappers when `preserve_embedding_norm` is set, then reruns
`__setup_requires_grad`.  Returns the emitted actions in order, paired with
the resulting requires-grad state.  The `train_progress` argument is
unused by the source body, which reads `model.train_progress` instead. -/
def after_optimizer_step (model : SDXLModelState) (config : TrainConfig)
    (_train_progress : TrainProgress) : List AfterStepEvent × SDXLModelState :=
  ((if config.preserve_embedding_norm then
      [AfterStepEvent.normalizeWrapper1, AfterStepEvent.normalizeWrapper2]
    else []) ++ [AfterStepEvent.recomputeRequiresGrad],
   setup_requires_grad model config)

/-- Device labels: the active train device and the holding temp device. -/
inductive Device where
  | trainDevice
  | tempDevice
deriving DecidableEq, Repr

/-- Observable actions of `setup_train_device` (lines 94-109). -/
inductive DeviceEvent where
  | moveTextEncoder1 (d : Device)
  | moveTextEncoder2 (d : Device)
  | moveVae (d : Device)
  | moveUnet (d : Device)
  | evalTextEncoder1
  | evalTextEncoder2
  | evalVae
  | evalUnet
deriving DecidableEq, Repr

/-- `setup_train_device` (lines 94-109) as its ordered trace of device moves
and eval-mode switches. -/
def setup_train_device (config : TrainConfig) : List DeviceEvent :=
  let vae_on_train_device := config.align_prop || !config.latent_caching
  [DeviceEvent.moveTextEncoder1
      (if config.text_encoder.train_embedding then Device.trainDevice else Device.tempDevice),
   DeviceEvent.moveTextEncoder2
      (if config.text_encoder_2.train_embedding then Device.trainDevice else Device.tempDevice),
   DeviceEvent.moveVae (if vae_on_train_device then Device.trainDevice else Device.tempDevice),
   DeviceEvent.moveUnet Device.trainDevice,
   DeviceEvent.evalTextEncoder1,
   DeviceEvent.evalTextEncoder2,
   DeviceEvent.evalVae,
   DeviceEvent.evalUnet]

/-- Modelled from the spec: the `TrainCommands` mailbox (its class is not
part of the two embedded source files).  Pushes always succeed and are
recorded; `stop` sets a stop-intent flag. -/
structure TrainCommands where
  stop_requested : Bool
  sample_default_requests : Nat
  backup_requests : Nat
  save_requests : Nat
deriving DecidableEq, Repr

/-- Fresh command queue, as constructed by `TrainCommands()` at run start. -/
def TrainCommands.new : TrainCommands :=
  { stop_requested := false, sample_default_requests := 0,
    backup_requests := 0, save_requests := 0 }

/-- Text and enabled flag of the start/stop button widget. -/
structure ButtonState where
  text : String
  enabled : Bool
deriving DecidableEq, Repr

/-- Slice of the `TrainUI` object state touched by `start_training`,
`__training_thread_function` and the command pushers: the background-thread
reference, the command-queue reference, and the (possibly absent) training
button. -/
structure TrainUIState where
  training_thread : Option Unit
  training_commands : Option TrainCommands
  training_button : Option ButtonState
deriving DecidableEq, Repr

/-- Outcome of the `trainer.start()` / `trainer.train()` body of one run:
the trainer returned normally after running to completion, returned
normally after honoring a stop command, raised in `start()`, or raised in
`train()`. -/
inductive RunResult where
  | completed
  | stoppedByUser
  | startRaised
  | trainRaised
deriving DecidableEq, Repr

/-- Whether the run body raised an exception. -/
def RunResult.raisesException : RunResult → Bool
  | RunResult.startRaised => true
  | RunResult.trainRaised => true
  | _ => false

/-- Observable actions of `__training_thread_function` (lines 632-679). -/
inductive ThreadEvent where
  | trainerStart
  | secretsUpdate
  | trainerTrain
  | exceptionLogged
  | trainerEnd
  | delTrainer
  | clearThread
  | clearCommands
  | clearAutocastCache
  | torchGc
  | statusUpdate (s : String)
  | setButtonText (s : String)
  | setButtonEnabled (b : Bool)
deriving DecidableEq, Repr

/-- The `try` body of `__training_thread_function` (lines 651-655):
`trainer.start()`, a cloud secrets update, `trainer.train()`.  An
`Except.error` result means an exception escaped the body after emitting
the listed events. -/
def trainer_run_body (cloud : Bool) (r : RunResult) : Except (List ThreadEvent) (List ThreadEvent) :=
  match r with
  | RunResult.startRaised => Except.error []
  | RunResult.trainRaised =>
    Except.error ([ThreadEvent.trainerStart] ++
      (if cloud then [ThreadEvent.secretsUpdate] else []))
  | _ =>
    Except.ok ([ThreadEvent.trainerStart] ++
      (if cloud then [ThreadEvent.secretsUpdate] else []) ++ [ThreadEvent.trainerTrain])

/-- Teardown actions (lines 662-670) that run after the `try`/`except`
block on every path: `trainer.end()`, releasing the trainer, clearing the
thread and command references, and clearing cached compute state. -/
def teardownEvents : List ThreadEvent :=
  [ThreadEvent.trainerEnd, ThreadEvent.delTrainer, ThreadEvent.clearThread,
   ThreadEvent.clearCommands, ThreadEvent.clearAutocastCache, ThreadEvent.torchGc]

/-- The `try`/`except` block of `__training_thread_function` (lines
651-660): the body's events when it returns, or — when an exception
escapes the body — the handler's cloud secrets update and traceback
logging.  The Bool is the resulting `error_caught` flag. -/
def caught_events (cloud : Bool) (r : RunResult) : List ThreadEvent × Bool :=
  match trainer_run_body cloud r with
  | Except.ok evs => (evs, false)
  | Except.error evs =>
    (evs ++ (if cloud then [ThreadEvent.secretsUpdate] else []) ++
      [ThreadEvent.exceptionLogged], true)

/-- `__training_thread_function` (lines 632-679): runs the trainer body,
catches any exception it raises (setting `error_caught`), performs
teardown, emits the terminal status, and restores the start button when
present.  Returns the updated UI state and the ordered event trace. -/
def training_thread_function (cloud : Bool) (r : RunResult) (s : TrainUIState) :
    TrainUIState × List ThreadEvent :=
  let caught : List ThreadEvent × Bool := caught_events cloud r
  let terminal : String :=
    if caught.2 then "error: check the console for more information" else "stopped"
  let events : List ThreadEvent :=
    caught.1 ++ teardownEvents ++ [ThreadEvent.statusUpdate terminal] ++
      (if s.training_button.isSome then
        [ThreadEvent.setButtonText "Start Training", ThreadEvent.setButtonEnabled true]
      else [])
  ({ s with
      training_thread := none
      training_commands := none
      training_button := s.training_button.map
        (fun _ => { text := "Start Training", enabled := true }) },
   events)

/-- Status strings emitted in an event trace, in order. -/
def statusUpdates (evs : List ThreadEvent) : List String :=
  evs.filterMap (fun e =>
    match e with
    | ThreadEvent.statusUpdate s => some s
    | _ => none)

/-- `start_training` (lines 681-699): with no active thread, saves defaults,
switches the button to "Stop Training", creates a fresh command queue and a
new background thread; with an active thread, disables the button and
pushes a stop intent into the existing queue. -/
def start_training (s : TrainUIState) : TrainUIState :=
  match s.training_thread with
  | none =>
    { s with
        training_button := s.training_button.map
          (fun _ => { text := "Stop Training", enabled := true })
        training_commands := some TrainCommands.new
        training_thread := some () }
  | some _ =>
    { s with
        training_button := s.training_button.map (fun b => { b with enabled := false })
        training_commands := s.training_commands.map
          (fun c => { c with stop_requested := true }) }

/-- `sample_now` (lines 721-723): pushes a default-sample request when a
command queue exists, otherwise does nothing. -/
def sample_now (s : TrainUIState) : TrainUIState :=
  match s.training_commands with
  | some c =>
    { s with
        training_commands :=
          some ({ c with sample_default_requests := c.sample_default_requests + 1 }) }
  | none => s

/-- `backup_now` (lines 725-727): pushes a backup request when a command
queue exists, otherwise does nothing. -/
def backup_now (s : TrainUIState) : TrainUIState :=
  match s.training_commands with
  | some c =>
    { s with training_commands := some ({ c with backup_requests := c.backup_requests + 1 }) }
  | none => s

/-- `save_now` (lines 729-731): pushes a save request when a command queue
exists, otherwise does nothing. -/
def save_now (s : TrainUIState) : TrainUIState :=
  match s.training_commands with
  | some c =>
    { s with training_commands := some ({ c with save_requests := c.save_requests + 1 }) }
  | none => s

/-! Helper lemmas and concrete instances. -/

/-- Element `k` of the additional-embedding loop started at index `start`
carries the decision computed for configuration index `start + k`. -/
theorem setupAdditionalLoop_getD (cfgs : List AdditionalEmbeddingConfig) (te1 te2 : Bool)
    (p : TrainProgress) :
    ∀ (l : List EmbeddingVectors) (start k : Nat), k < l.length →
      (setupAdditionalLoop cfgs te1 te2 p start l).getD k defaultEmbeddingVectors =
        additionalVectorFlags (cfgs.getD (start + k) defaultAdditionalEmbeddingConfig)
          te1 te2 p (start + k) := by
  intro l
  induction l with
  | nil =>
    intro start k h
    simp at h
  | cons a rest ih =>
    intro start k h
    cases k with
    | zero =>
      simp [setupAdditionalLoop]
    | succ k =>
      have h2 : k < rest.length := by
        simpa using h
      have hrw : start + 1 + k = start + (k + 1) := by
        omega
      calc (setupAdditionalLoop cfgs te1 te2 p start (a :: rest)).getD (k + 1)
              defaultEmbeddingVectors
          = (setupAdditionalLoop cfgs te1 te2 p (start + 1) rest).getD k
              defaultEmbeddingVectors := by
            simp [setupAdditionalLoop]
        _ = additionalVectorFlags (cfgs.getD (start + 1 + k) defaultAdditionalEmbeddingConfig)
              te1 te2 p (start + 1 + k) := ih (start + 1) k h2
        _ = additionalVectorFlags (cfgs.getD (start + (k + 1)) defaultAdditionalEmbeddingConfig)
              te1 te2 p (start + (k + 1)) := by
            rw [hrw]

/-- Concrete progress counter used in closed instances. -/
def sampleProgress : TrainProgress :=
  { global_step := 0, epoch := 0, epoch_step := 0 }

/-- Concrete model state with one additional embedding, all flags off. -/
def sampleModel : SDXLModelState :=
  { text_encoder_1 := false, text_encoder_2 := false, vae := false, unet := false,
    embedding := defaultEmbeddingVectors,
    additional_embeddings := [defaultEmbeddingVectors],
    train_progress := sampleProgress }

/-- Concrete configuration with both "train embedding" flags false and one
additional embedding whose `train` intent is true. -/
def sampleConfigNoTrain : TrainConfig :=
  { text_encoder := { train_embedding := false },
    text_encoder_2 := { train_embedding := false },
    additional_embeddings :=
      [{ train := true, stop_training_after := some 100,
         stop_training_after_unit := TimeUnit.step }],
    preserve_embedding_norm := false,
    align_prop := false,
    latent_caching := true }

/-- Concrete configuration with both "train embedding" flags true and one
additional embedding that trains and stops after 100 steps. -/
def sampleConfigTrain : TrainConfig :=
  { text_encoder := { train_embedding := true },
    text_encoder_2 := { train_embedding := true },
    additional_embeddings :=
      [{ train := true, stop_training_after := some 100,
         stop_training_after_unit := TimeUnit.step }],
    preserve_embedding_norm := true,
    align_prop := false,
    latent_caching := true }

/-! Claims about `StableDiffusionXLEmbeddingSetup`. -/

/-- C1 (counterexample): with the encoders' "train embedding" flags both
false, `__setup_requires_grad` still sets both base embedding vectors
gradient-enabled, so the claimed equivalence between the base vectors'
requires-grad flag and the config flag fails at this concrete input. -/
theorem base_vector_enabled_despite_flag_false :
    sampleConfigNoTrain.text_encoder.train_embedding = false ∧
    sampleConfigNoTrain.text_encoder_2.train_embedding = false ∧
    (setup_requires_grad sampleModel sampleConfigNoTrain).embedding.text_encoder_1_vector = true ∧
    (setup_requires_grad sampleModel sampleConfigNoTrain).embedding.text_encoder_2_vector = true := by
  refine ⟨rfl, rfl, rfl, rfl⟩

/-- C1 (amended): `__setup_requires_grad` unconditionally gradient-enables
both base embedding vectors, for every model state and configuration; the
"train embedding" flags instead control whether the corresponding
wrapper's parameter group is handed to the optimizer by
`create_parameters`. -/
theorem base_vector_always_enabled (model : SDXLModelState) (config : TrainConfig) :
    (setup_requires_grad model config).embedding.text_encoder_1_vector = true ∧
    (setup_requires_grad model config).embedding.text_encoder_2_vector = true ∧
    ("embeddings_1" ∈ create_parameters config ↔ config.text_encoder.train_embedding = true) ∧
    ("embeddings_2" ∈ create_parameters config ↔ config.text_encoder_2.train_embedding = true) := by
  refine ⟨rfl, rfl, ?_, ?_⟩ <;>
    cases h1 : config.text_encoder.train_embedding <;>
    cases h2 : config.text_encoder_2.train_embedding <;>
    simp [create_parameters, h1, h2]

/-- C2: for every in-range additional embedding `i`, `__setup_requires_grad`
enables the unit's vector for encoder `k` iff the unit's static `train`
intent is true, encoder `k`'s "train embedding" flag is true, and the
unit's stop condition has not elapsed at the model's current progress; in
particular a unit with `train = false` is never enabled. -/
theorem additional_embedding_requires_grad (model : SDXLModelState) (config : TrainConfig)
    (i : Nat) (h1 : i < model.additional_embeddings.length)
    (h2 : i < config.additional_embeddings.length) :
    ((setup_requires_grad model config).additional_embeddings.getD i
        defaultEmbeddingVectors).text_encoder_1_vector =
      ((config.additional_embeddings.getD i defaultAdditionalEmbeddingConfig).train &&
        config.text_encoder.train_embedding &&
        !(stop_additional_embedding_training_elapsed
            (config.additional_embeddings.getD i defaultAdditionalEmbeddingConfig)
            model.train_progress i)) ∧
    ((setup_requires_grad model config).additional_embeddings.getD i
        defaultEmbeddingVectors).text_encoder_2_vector =
      ((config.additional_embeddings.getD i defaultAdditionalEmbeddingConfig).train &&
        config.text_encoder_2.train_embedding &&
        !(stop_additional_embedding_training_elapsed
            (config.additional_embeddings.getD i defaultAdditionalEmbeddingConfig)
            model.train_progress i)) ∧
    ((config.additional_embeddings.getD i defaultAdditionalEmbeddingConfig).train = false →
      ((setup_requires_grad model config).additional_embeddings.getD i
          defaultEmbeddingVectors).text_encoder_1_vector = false ∧
      ((setup_requires_grad model config).additional_embeddings.getD i
          defaultEmbeddingVectors).text_encoder_2_vector = false) := by
  have hloop := setupAdditionalLoop_getD config.additional_embeddings
    config.text_encoder.train_embedding config.text_encoder_2.train_embedding
    model.train_progress model.additional_embeddings 0 i h1
  have hmain : (setup_requires_grad model config).additional_embeddings.getD i
      defaultEmbeddingVectors =
      additionalVectorFlags (config.additional_embeddings.getD i
        defaultAdditionalEmbeddingConfig) config.text_encoder.train_embedding
        config.text_encoder_2.train_embedding model.train_progress i := by
    simpa [setup_requires_grad] using hloop
  rw [hmain]
  refine ⟨rfl, rfl, ?_⟩
  intro htrain
  simp only [additionalVectorFlags, htrain]
  simp

/-- C2 (witness): instantiation at a one-unit model and configuration with
progress zero, where the unit is enabled for both encoders. -/
theorem additional_embedding_requires_grad_witness :
    0 < sampleModel.additional_embeddings.length ∧
    0 < sampleConfigTrain.additional_embeddings.length ∧
    ((setup_requires_grad sampleModel sampleConfigTrain).additional_embeddings.getD 0
        defaultEmbeddingVectors).text_encoder_1_vector =
      ((sampleConfigTrain.additional_embeddings.getD 0 defaultAdditionalEmbeddingConfig).train &&
        sampleConfigTrain.text_encoder.train_embedding &&
        !(stop_additional_embedding_training_elapsed
            (sampleConfigTrain.additional_embeddings.getD 0 defaultAdditionalEmbeddingConfig)
            sampleModel.train_progress 0)) :=
  ⟨by decide, by decide,
    (additional_embedding_requires_grad sampleModel sampleConfigTrain 0
      (by decide) (by decide)).1⟩

/-- C5: `after_optimizer_step` emits the normalization pass on both
embedding wrappers exactly when `preserve_embedding_norm` is set
(independently of any unit's enablement state), its last action is always
the requires-grad recomputation (so normalization, when configured,
precedes it), and the resulting state is exactly the state recomputed from
scratch by `__setup_requires_grad`. -/
theorem after_optimizer_step_normalize_then_recompute (model : SDXLModelState)
    (config : TrainConfig) (p : TrainProgress) :
    (AfterStepEvent.normalizeWrapper1 ∈ (after_optimizer_step model config p).1 ↔
      config.preserve_embedding_norm = true) ∧
    (AfterStepEvent.normalizeWrapper2 ∈ (after_optimizer_step model config p).1 ↔
      config.preserve_embedding_norm = true) ∧
    ((after_optimizer_step model config p).1).getLast? =
      some AfterStepEvent.recomputeRequiresGrad ∧
    (after_optimizer_step model config p).2 = setup_requires_grad model config := by
  cases h : config.preserve_embedding_norm <;>
    simp [after_optimizer_step, h]

/-- C10: immediately after any gradient-schedule evaluation — at setup via
`__setup_requires_grad` or after an optimizer step via
`after_optimizer_step` — the four backbone sub-models (text encoder 1,
text encoder 2, VAE, UNet) are never gradient-enabled, whatever their
flags were before. -/
theorem backbone_never_gradient_enabled (model : SDXLModelState) (config : TrainConfig)
    (p : TrainProgress) :
    (setup_requires_grad model config).text_encoder_1 = false ∧
    (setup_requires_grad model config).text_encoder_2 = false ∧
    (setup_requires_grad model config).vae = false ∧
    (setup_requires_grad model config).unet = false ∧
    (after_optimizer_step model config p).2.text_encoder_1 = false ∧
    (after_optimizer_step model config p).2.text_encoder_2 = false ∧
    (after_optimizer_step model config p).2.vae = false ∧
    (after_optimizer_step model config p).2.unet = false := by
  refine ⟨rfl, rfl, rfl, rfl, rfl, rfl, rfl, rfl⟩

/-- C6: `setup_train_device` moves the VAE to the train device iff
align-prop mode is set or latent caching is disabled (and to the temp
device otherwise), and moves each text encoder to the train device iff its
"train embedding" flag is set (and to the temp device otherwise). -/
theorem setup_train_device_placement (config : TrainConfig) :
    (DeviceEvent.moveVae Device.trainDevice ∈ setup_train_device config ↔
      (config.align_prop = true ∨ config.latent_caching = false)) ∧
    (DeviceEvent.moveVae Device.tempDevice ∈ setup_train_device config ↔
      ¬(config.align_prop = true ∨ config.latent_caching = false)) ∧
    (DeviceEvent.moveTextEncoder1 Device.trainDevice ∈ setup_train_device config ↔
      config.text_encoder.train_embedding = true) ∧
    (DeviceEvent.moveTextEncoder1 Device.tempDevice ∈ setup_train_device config ↔
      config.text_encoder.train_embedding = false) ∧
    (DeviceEvent.moveTextEncoder2 Device.trainDevice ∈ setup_train_device config ↔
      config.text_encoder_2.train_embedding = true) ∧
    (DeviceEvent.moveTextEncoder2 Device.tempDevice ∈ setup_train_device config ↔
      config.text_encoder_2.train_embedding = false) := by
  cases h1 : config.text_encoder.train_embedding <;>
    cases h2 : config.text_encoder_2.train_embedding <;>
    cases h3 : config.align_prop <;>
    cases h4 : config.latent_caching <;>
    simp [setup_train_device, h1, h2, h3, h4]

/-- C7: `setup_train_device` unconditionally moves the UNet to the train
device — no configuration routes it to the temp device — and switches it
into eval mode strictly after the placement. -/
theorem unet_pinned_to_train_device (config : TrainConfig) :
    DeviceEvent.moveUnet Device.trainDevice ∈ setup_train_device config ∧
    DeviceEvent.moveUnet Device.tempDevice ∉ setup_train_device config ∧
    ∃ i j : Fin (setup_train_device config).length, i < j ∧
      (setup_train_device config).get i = DeviceEvent.moveUnet Device.trainDevice ∧
      (setup_train_device config).get j = DeviceEvent.evalUnet := by
  refine ⟨?_, ?_, ⟨3, by simp [setup_train_device]⟩, ⟨7, by simp [setup_train_device]⟩,
    ?_, rfl, rfl⟩
  · simp [setup_train_device]
  · simp [setup_train_device]
  · simp [Fin.lt_def]

/-! Claims about `TrainUI`. -/

/-- Concrete idle UI state: no thread, no command queue, button present. -/
def sampleUIIdle : TrainUIState :=
  { training_thread := none, training_commands := none,
    training_button := some { text := "Start Training", enabled := true } }

/-- Concrete busy UI state: active thread, a queue holding pending
requests, button present. -/
def sampleUIBusy : TrainUIState :=
  { training_thread := some (),
    training_commands := some
      { stop_requested := false, sample_default_requests := 2,
        backup_requests := 0, save_requests := 1 },
    training_button := some { text := "Stop Training", enabled := true } }

/-- C3 (counterexample): a run that completes normally and a run that was
stopped by the user produce the same terminal status string "stopped", so
the terminal status does not distinguish Completed from Stopped. -/
theorem completed_status_equals_stopped_status :
    statusUpdates (training_thread_function false RunResult.completed sampleUIBusy).2 =
      statusUpdates (training_thread_function false RunResult.stoppedByUser sampleUIBusy).2 ∧
    statusUpdates (training_thread_function false RunResult.completed sampleUIBusy).2 =
      ["stopped"] := by
  refine ⟨rfl, rfl⟩

/-- C3 (amended): the thread function emits exactly one terminal status
update, "error: check the console for more information" when the run
raised and "stopped" otherwise — a user stop and a normal completion share
the same "stopped" string — and the start button, when present, is
restored to enabled "Start Training" regardless of outcome. -/
theorem terminal_status_and_button_restore (cloud : Bool) (r : RunResult) (s : TrainUIState) :
    statusUpdates (training_thread_function cloud r s).2 =
      [if r.raisesException then "error: check the console for more information"
       else "stopped"] ∧
    ((training_thread_function cloud r s).1).training_button =
      s.training_button.map (fun _ => { text := "Start Training", enabled := true }) := by
  cases r <;> cases cloud <;> cases hb : s.training_button.isSome <;>
    simp [training_thread_function, caught_events, trainer_run_body, statusUpdates,
      teardownEvents, RunResult.raisesException, hb]

/-- C4: when the run body raises (in `trainer.start()` or
`trainer.train()`), the exception escapes the body but is caught by the
thread function, which still produces its entire trace (it returns
normally), classifies the run as failed via the error status, clears the
thread and command references, and runs the same teardown block
(`trainer.end()`, trainer release, cache clearing) that every other exit
path runs. -/
theorem exception_caught_teardown_runs (cloud : Bool) (r : RunResult) (s : TrainUIState)
    (h : r.raisesException = true) :
    (∃ evs, trainer_run_body cloud r = Except.error evs) ∧
    ThreadEvent.statusUpdate "error: check the console for more information" ∈
      (training_thread_function cloud r s).2 ∧
    (training_thread_function cloud r s).1.training_thread = none ∧
    (training_thread_function cloud r s).1.training_commands = none ∧
    (∀ r2 : RunResult, ∃ pre post,
      (training_thread_function cloud r2 s).2 = pre ++ teardownEvents ++ post) := by
  refine ⟨?_, ?_, rfl, rfl, ?_⟩
  · cases r <;> simp [RunResult.raisesException] at h <;>
      first
        | exact ⟨[], rfl⟩
        | exact ⟨[ThreadEvent.trainerStart] ++
            (if cloud then [ThreadEvent.secretsUpdate] else []), rfl⟩
  · have hcaught : (caught_events cloud r).2 = true := by
      cases r <;> simp [RunResult.raisesException] at h <;>
        simp [caught_events, trainer_run_body]
    simp [training_thread_function, hcaught]
  · intro r2
    exact ⟨(caught_events cloud r2).1,
      [ThreadEvent.statusUpdate
        (if (caught_events cloud r2).2 then
          "error: check the console for more information" else "stopped")] ++
        (if s.training_button.isSome then
          [ThreadEvent.setButtonText "Start Training", ThreadEvent.setButtonEnabled true]
        else []),
      by simp [training_thread_function]⟩

/-- C4 (witness): instantiation at a local run whose `trainer.train()`
raises, started from the busy UI state. -/
theorem exception_caught_teardown_runs_witness :
    RunResult.trainRaised.raisesException = true ∧
    ((∃ evs, trainer_run_body false RunResult.trainRaised = Except.error evs) ∧
      ThreadEvent.statusUpdate "error: check the console for more information" ∈
        (training_thread_function false RunResult.trainRaised sampleUIBusy).2 ∧
      (training_thread_function false RunResult.trainRaised sampleUIBusy).1.training_thread
        = none ∧
      (training_thread_function false RunResult.trainRaised sampleUIBusy).1.training_commands
        = none ∧
      (∀ r2 : RunResult, ∃ pre post,
        (training_thread_function false r2 sampleUIBusy).2 =
          pre ++ teardownEvents ++ post)) :=
  ⟨rfl, exception_caught_teardown_runs false RunResult.trainRaised sampleUIBusy rfl⟩

/-- C8: invoking `start_training` with an active thread keeps the thread
reference unchanged and only sets the stop intent on the existing queue
(no new queue; its other entries are untouched), while invoking it with no
active thread creates a new thread and a fresh command queue. -/
theorem start_training_idle_or_busy (s : TrainUIState) :
    (s.training_thread = none →
      (start_training s).training_thread = some () ∧
      (start_training s).training_commands = some TrainCommands.new) ∧
    (s.training_thread = some () →
      (start_training s).training_thread = s.training_thread ∧
      (start_training s).training_commands =
        s.training_commands.map (fun c => { c with stop_requested := true })) := by
  cases hs : s.training_thread with
  | none =>
    refine ⟨fun _ => ⟨?_, ?_⟩, fun hcontra => by simp [hs] at hcontra⟩ <;>
      simp [start_training, hs]
  | some u =>
    refine ⟨fun hcontra => by simp [hs] at hcontra, fun _ => ⟨?_, ?_⟩⟩ <;>
      simp [start_training, hs]

/-- C8 (witness): instantiation at the busy state (stop intent issued, no
new thread) and at the idle state (fresh thread and queue). -/
theorem start_training_idle_or_busy_witness :
    sampleUIBusy.training_thread = some () ∧
    (start_training sampleUIBusy).training_thread = sampleUIBusy.training_thread ∧
    (start_training sampleUIBusy).training_commands =
      sampleUIBusy.training_commands.map (fun c => { c with stop_requested := true }) ∧
    sampleUIIdle.training_thread = none ∧
    (start_training sampleUIIdle).training_thread = some () ∧
    (start_training sampleUIIdle).training_commands = some TrainCommands.new :=
  ⟨rfl,
    ((start_training_idle_or_busy sampleUIBusy).2 rfl).1,
    ((start_training_idle_or_busy sampleUIBusy).2 rfl).2,
    rfl,
    ((start_training_idle_or_busy sampleUIIdle).1 rfl).1,
    ((start_training_idle_or_busy sampleUIIdle).1 rfl).2⟩

/-- C9: after the thread function finishes, the command-queue reference is
cleared, so every subsequent `sample_now`, `backup_now` or `save_now` is a
no-op on the UI state; and each run started from idle receives a fresh
command queue. -/
theorem commands_after_finished_discarded (cloud : Bool) (r : RunResult) (s0 : TrainUIState) :
    ((training_thread_function cloud r s0).1).training_commands = none ∧
    sample_now (training_thread_function cloud r s0).1 =
      (training_thread_function cloud r s0).1 ∧
    backup_now (training_thread_function cloud r s0).1 =
      (training_thread_function cloud r s0).1 ∧
    save_now (training_thread_function cloud r s0).1 =
      (training_thread_function cloud r s0).1 ∧
    (∀ s : TrainUIState, s.training_thread = none →
      (start_training s).training_commands = some TrainCommands.new) := by
  refine ⟨rfl, rfl, rfl, rfl, ?_⟩
  intro s hs
  simp [start_training, hs]

/-- C9 (witness): instantiation after a completed local run started from
the busy state, with the fresh-queue part instantiated at the idle state. -/
theorem commands_after_finished_discarded_witness :
    ((training_thread_function false RunResult.completed sampleUIBusy).1).training_commands
      = none ∧
    sample_now (training_thread_function false RunResult.completed sampleUIBusy).1 =
      (training_thread_function false RunResult.completed sampleUIBusy).1 ∧
    sampleUIIdle.training_thread = none ∧
    (start_training sampleUIIdle).training_commands = some TrainCommands.new :=
  ⟨(commands_after_finished_discarded false RunResult.completed sampleUIBusy).1,
    (commands_after_finished_discarded false RunResult.completed sampleUIBusy).2.1,
    rfl,
    (commands_after_finished_discarded false RunResult.completed sampleUIBusy).2.2.2.2
      sampleUIIdle rfl⟩
